import Mathlib

set_option autoImplicit false

/-!
Shallow embedding of the `provider/galaxy.go` component of
ansible-requirements-lint (the Ansible Galaxy registry client), together
with a spec-modelled Resolver, and proofs of the specification claims.
-/

/-- A dependency reference from the requirements manifest. The Go type
`requirements.Role` is not part of the provided sources; its fields are
taken from the spec's DependencyReference (`name`, `declaredVersion`,
`sourceHint`) and from the fields `galaxy.go` accesses (`r.Source`,
`r.Name`). The absent source hint is the empty string, as in Go. -/
structure Role where
  Name : String
  Version : String
  Source : String
deriving DecidableEq

/-- The `AnsibleGalaxy` provider struct: holds the base URL fixed at
construction time. -/
structure AnsibleGalaxy where
  baseURL : String
deriving DecidableEq

/-- The `DefaultAnsibleGalaxyURL` constant from `galaxy.go`. -/
def DefaultAnsibleGalaxyURL : String := "https://galaxy.ansible.com"

/-- The constructor `NewAnsibleGalaxy` from `galaxy.go`: empty base URL falls back to the
default Galaxy URL, any other string is stored as given. -/
def NewAnsibleGalaxy (baseURL : String) : AnsibleGalaxy :=
  if baseURL = "" then { baseURL := DefaultAnsibleGalaxyURL }
  else { baseURL := baseURL }

/-- The URL the search request is issued against: the construction-time
base URL with the fixed search path appended (`galaxy.go` line 47). -/
def searchURL (g : AnsibleGalaxy) : String :=
  g.baseURL ++ "/api/v1/search/roles/"

/-- One element of `summary_fields.versions` in a Galaxy search result. -/
structure GalaxyVersion where
  Name : String
deriving DecidableEq

/-- The `summary_fields.namespace` object of a Galaxy search result. -/
structure GalaxyNamespace where
  Name : String
deriving DecidableEq

/-- The `summary_fields` object of a Galaxy search result. -/
structure GalaxySummaryFields where
  Versions : List GalaxyVersion
  Namespace : GalaxyNamespace
deriving DecidableEq

/-- One entry of the `results` list of a Galaxy search response
(Go type `galaxyResult`). -/
structure GalaxyResult where
  SummaryFields : GalaxySummaryFields
deriving DecidableEq

/-- The decoded search response body: `count` and `results`. -/
structure GalaxyResponse where
  Count : Int
  Results : List GalaxyResult
deriving DecidableEq

/-- Abstraction of the HTTP response `VersionsForRole` receives: the status
code, and the body as `some` decoded response when `json.Unmarshal`
succeeds, `none` when the body cannot be decoded. -/
structure HTTPResponse where
  StatusCode : Nat
  Body : Option GalaxyResponse
deriving DecidableEq

/-- Helper for `splitGo`: prepend a character to the first segment of a
split result (the non-separator branch of Go's split loop). -/
def consHead (x : Char) : List (List Char) → List (List Char)
  | [] => [[x]]
  | y :: ys => (x :: y) :: ys

/-- Go's `strings.Split` with a single-character separator, on the
character list of the string: splitting around each instance of the
separator. `strings.Split(s, ".")` never returns an empty slice: a string
with no separator yields the one-element slice holding the whole string. -/
def splitGo (c : Char) : List Char → List (List Char)
  | [] => [[]]
  | x :: xs => if x = c then [] :: splitGo c xs else consHead x (splitGo c xs)

/-- Go `strings.Split(s, sep)` for the single-character separator used in
`galaxy.go` (the `.` separator), as a list of strings. -/
def stringsSplit (s : String) (sep : Char) : List String :=
  (splitGo sep s.toList).map String.mk

/-- The search keywords derivation (`galaxy.go` lines 52-58): the role's
`Source` when non-empty, else its `Name`. -/
def keywordsForRole (r : Role) : String :=
  if r.Source.length ≠ 0 then r.Source else r.Name

/-- The namespace derivation (`galaxy.go` lines 60-65): `namespace` starts
as the empty string and is set to the first element of
`strings.Split(keywords, ".")` when that slice is non-empty. -/
def namespaceForKeywords (keywords : String) : String :=
  let split := stringsSplit keywords '.'
  if split.length > 0 then split.headD "" else ""

/-- The disambiguation step (`galaxy.go` lines 115-126): with exactly one
result it is taken unconditionally; otherwise the first result whose
namespace name equals the expected namespace is taken; `none` when the
loop finds no match. -/
def selectMatching (results : List GalaxyResult) (ns : String) : Option GalaxyResult :=
  if results.length = 1 then results.head?
  else results.find? fun q => q.SummaryFields.Namespace.Name = ns

/-- The function `VersionsForRole` from `galaxy.go`, as a function of the HTTP response
it receives. The status-code test reproduces the source condition
`resp.StatusCode < 200 && resp.StatusCode >= 300` literally; an
undecodable body is the `json.Unmarshal` failure; the success value is
the `name` of each version of the selected entry, in order. -/
def VersionsForRole (g : AnsibleGalaxy) (r : Role) (resp : HTTPResponse) :
    Except String (List String) :=
  let keywords := keywordsForRole r
  let ns := namespaceForKeywords keywords
  if resp.StatusCode < 200 ∧ resp.StatusCode ≥ 300 then
    Except.error ("unexpected Ansible Galaxy response code: " ++ toString resp.StatusCode)
  else
    match resp.Body with
    | none => Except.error "json unmarshal failure"
    | some results =>
      match selectMatching results.Results ns with
      | none => Except.error ("unable to find role in Ansible Galaxy: " ++ keywords)
      | some matching =>
        Except.ok (matching.SummaryFields.Versions.map GalaxyVersion.Name)

/-- Resolution verdict for one dependency. -/
inductive Status where
  | upToDate
  | outdated
  | unresolved
deriving DecidableEq

/-- The per-dependency resolution record of the spec's data model. -/
structure ResolutionResult where
  reference : Role
  latestVersion : Option String
  status : Status
deriving DecidableEq

/-- Modelled from the spec: the Resolver component (spec section 4.2) lives
in the linter package, which is not among the provided sources; only the
Registry Client (`VersionsForRole`) is. Steps 3-7 of the spec's algorithm,
taking the outcome of the registry lookup as an argument: a failed lookup
or an empty version list resolves to Unresolved with no latest version;
otherwise the first element of the list is the latest version, compared to
the declared version by exact string equality. -/
def resolve (ref : Role) (lookup : Except String (List String)) : ResolutionResult :=
  match lookup with
  | Except.error _ => { reference := ref, latestVersion := none, status := Status.unresolved }
  | Except.ok [] => { reference := ref, latestVersion := none, status := Status.unresolved }
  | Except.ok (latest :: _) =>
    if latest = ref.Version then
      { reference := ref, latestVersion := some latest, status := Status.upToDate }
    else
      { reference := ref, latestVersion := some latest, status := Status.outdated }

/-! ## Helper lemmas -/

theorem splitGo_ne_nil (c : Char) (l : List Char) : splitGo c l ≠ [] := by
  induction l with
  | nil => simp [splitGo]
  | cons x xs ih =>
    simp only [splitGo]
    split
    · simp
    · cases h : splitGo c xs with
      | nil => exact absurd h ih
      | cons y ys => simp [consHead]

theorem splitGo_no_sep (c : Char) (l : List Char) (h : c ∉ l) : splitGo c l = [l] := by
  induction l with
  | nil => rfl
  | cons x xs ih =>
    have hx : ¬x = c := fun e => h (e ▸ List.mem_cons_self x xs)
    have hxs : c ∉ xs := fun m => h (List.mem_cons_of_mem _ m)
    simp [splitGo, hx, ih hxs, consHead]

theorem mk_toList (s : String) : String.mk s.toList = s := rfl

theorem string_length_eq_zero_iff (s : String) : s.length = 0 ↔ s = "" := by
  cases s with
  | mk d =>
    cases d with
    | nil => simp
    | cons c cs =>
      constructor
      · intro h
        simp [String.length] at h
      · intro h
        simp_all

theorem stringsSplit_length_pos (s : String) (sep : Char) :
    0 < (stringsSplit s sep).length := by
  unfold stringsSplit
  rw [List.length_map]
  cases h : splitGo sep s.toList with
  | nil => exact absurd h (splitGo_ne_nil sep s.toList)
  | cons y ys => simp

/-! ## Claim theorems -/

/-- C2, counterexample: for the keyword `myrole`, which contains no `.`
separator, the expected namespace is `myrole`, not the empty string. -/
theorem c2_namespace_counterexample :
    '.' ∉ "myrole".toList ∧ namespaceForKeywords "myrole" = "myrole" ∧
    namespaceForKeywords "myrole" ≠ "" := by
  decide

/-- C2, amended: the expected namespace is the first segment of splitting
the keyword on the `.` separator; when the keyword contains no `.` the
split yields the single segment equal to the whole keyword, so the
expected namespace is the keyword itself (empty only when the keyword is
itself empty). -/
theorem c2_namespace_first_segment (k : String) :
    namespaceForKeywords k = (stringsSplit k '.').headD "" ∧
    ('.' ∉ k.toList → namespaceForKeywords k = k) := by
  constructor
  · unfold namespaceForKeywords
    simp [stringsSplit_length_pos k]
  · intro h
    unfold namespaceForKeywords stringsSplit
    rw [splitGo_no_sep '.' k.toList h]
    simp [mk_toList]

/-- C2 witness: at the separator-free keyword `myrole` the expected
namespace is `myrole`. -/
theorem c2_namespace_first_segment_witness :
    '.' ∉ "myrole".toList ∧ namespaceForKeywords "myrole" = "myrole" :=
  ⟨by decide, (c2_namespace_first_segment "myrole").2 (by decide)⟩

/-- C3: when the registry returns exactly one candidate entry, that entry
is selected unconditionally: the returned version list is that entry's
version names whatever its namespace is and whatever expected namespace
the role's keyword yields. -/
theorem c3_single_entry_selected (g : AnsibleGalaxy) (r : Role) (sc : Nat)
    (cnt : Int) (e : GalaxyResult) :
    VersionsForRole g r { StatusCode := sc, Body := some { Count := cnt, Results := [e] } } =
      Except.ok (e.SummaryFields.Versions.map GalaxyVersion.Name) := by
  unfold VersionsForRole
  rw [if_neg (by omega)]
  simp [selectMatching]

/-- C6: the search keyword is the role's source hint when that hint is
non-empty, and the role's name otherwise. -/
theorem c6_keywords_from_source (r : Role) :
    (r.Source ≠ "" → keywordsForRole r = r.Source) ∧
    (r.Source = "" → keywordsForRole r = r.Name) := by
  constructor
  · intro h
    unfold keywordsForRole
    rw [if_pos]
    intro hlen
    exact h ((string_length_eq_zero_iff r.Source).mp hlen)
  · intro h
    unfold keywordsForRole
    rw [if_neg]
    simp [h]

/-- C6 witness: a role with a source hint searches by the hint; the same
role without one searches by its name. -/
theorem c6_keywords_from_source_witness :
    keywordsForRole { Name := "acme.redis", Version := "v1.0.0", Source := "fork.redis" } =
      "fork.redis" ∧
    keywordsForRole { Name := "acme.redis", Version := "v1.0.0", Source := "" } =
      "acme.redis" :=
  ⟨(c6_keywords_from_source _).1 (by decide), (c6_keywords_from_source _).2 rfl⟩

/-- C9: constructing the client with the empty string yields the default
Galaxy base URL, any other string is kept verbatim, and the search request
URL is built from that construction-time value. -/
theorem c9_base_url (u : String) :
    ((NewAnsibleGalaxy u).baseURL = if u = "" then DefaultAnsibleGalaxyURL else u) ∧
    (searchURL (NewAnsibleGalaxy u) =
      (if u = "" then DefaultAnsibleGalaxyURL else u) ++ "/api/v1/search/roles/") := by
  unfold NewAnsibleGalaxy searchURL
  split <;> simp

/-- C4: when the number of returned entries is not one, the selected entry
is the first, in returned order, whose namespace equals the expected
namespace derived from the role's keyword, and its version names are
returned. -/
theorem c4_first_namespace_match (g : AnsibleGalaxy) (r : Role) (sc : Nat)
    (cnt : Int) (rs : List GalaxyResult) (e : GalaxyResult)
    (hlen : rs.length ≠ 1)
    (hfind : rs.find?
        (fun q => q.SummaryFields.Namespace.Name = namespaceForKeywords (keywordsForRole r)) =
      some e) :
    VersionsForRole g r { StatusCode := sc, Body := some { Count := cnt, Results := rs } } =
      Except.ok (e.SummaryFields.Versions.map GalaxyVersion.Name) := by
  have hsel : selectMatching rs (namespaceForKeywords (keywordsForRole r)) = some e := by
    unfold selectMatching
    rw [if_neg hlen]
    exact hfind
  unfold VersionsForRole
  rw [if_neg (by omega)]
  simp [hsel]

/-- C4 witness: two candidates with namespaces `other` and `ns` for the
keyword `ns.role`; the second one matches and is selected even though it
is not first. -/
theorem c4_first_namespace_match_witness :
    VersionsForRole (NewAnsibleGalaxy "") ⟨"ns.role", "v1.0.0", ""⟩
        ⟨200, some ⟨2, [⟨⟨[⟨"v9.0.0"⟩], ⟨"other"⟩⟩⟩, ⟨⟨[⟨"v1.1.0"⟩, ⟨"v1.0.0"⟩], ⟨"ns"⟩⟩⟩]⟩⟩ =
      Except.ok ["v1.1.0", "v1.0.0"] := by
  have h := c4_first_namespace_match (NewAnsibleGalaxy "") ⟨"ns.role", "v1.0.0", ""⟩ 200 2
      [⟨⟨[⟨"v9.0.0"⟩], ⟨"other"⟩⟩⟩, ⟨⟨[⟨"v1.1.0"⟩, ⟨"v1.0.0"⟩], ⟨"ns"⟩⟩⟩]
      ⟨⟨[⟨"v1.1.0"⟩, ⟨"v1.0.0"⟩], ⟨"ns"⟩⟩⟩ (by decide) (by decide)
  exact h

/-- C5: zero returned entries, or a number of entries other than one with
none matching the expected namespace, selects nothing: `VersionsForRole`
fails with the lookup error, and the spec-modelled Resolver turns that
error into an Unresolved result with no latest version. -/
theorem c5_no_match_unresolved (g : AnsibleGalaxy) (r : Role) (sc : Nat)
    (cnt : Int) (rs : List GalaxyResult)
    (hlen : rs.length ≠ 1)
    (hfind : rs.find?
        (fun q => q.SummaryFields.Namespace.Name = namespaceForKeywords (keywordsForRole r)) =
      none) :
    VersionsForRole g r { StatusCode := sc, Body := some { Count := cnt, Results := rs } } =
      Except.error ("unable to find role in Ansible Galaxy: " ++ keywordsForRole r) ∧
    resolve r (VersionsForRole g r { StatusCode := sc, Body := some { Count := cnt, Results := rs } }) =
      { reference := r, latestVersion := none, status := Status.unresolved } := by
  have hsel : selectMatching rs (namespaceForKeywords (keywordsForRole r)) = none := by
    unfold selectMatching
    rw [if_neg hlen]
    exact hfind
  have h1 : VersionsForRole g r { StatusCode := sc, Body := some { Count := cnt, Results := rs } } =
      Except.error ("unable to find role in Ansible Galaxy: " ++ keywordsForRole r) := by
    unfold VersionsForRole
    rw [if_neg (by omega)]
    simp [hsel]
  refine ⟨h1, ?_⟩
  rw [h1]
  rfl

/-- C5 witness: zero candidates for the keyword `ghost.role` yield the
lookup error and an Unresolved resolution. -/
theorem c5_no_match_unresolved_witness :
    VersionsForRole (NewAnsibleGalaxy "")
        { Name := "ghost.role", Version := "v1.0.0", Source := "" }
        { StatusCode := 200, Body := some { Count := 0, Results := [] } } =
      Except.error ("unable to find role in Ansible Galaxy: " ++
        keywordsForRole { Name := "ghost.role", Version := "v1.0.0", Source := "" }) ∧
    resolve { Name := "ghost.role", Version := "v1.0.0", Source := "" }
        (VersionsForRole (NewAnsibleGalaxy "")
          { Name := "ghost.role", Version := "v1.0.0", Source := "" }
          { StatusCode := 200, Body := some { Count := 0, Results := [] } }) =
      { reference := { Name := "ghost.role", Version := "v1.0.0", Source := "" },
        latestVersion := none, status := Status.unresolved } := by
  refine c5_no_match_unresolved _ _ _ _ _ ?_ ?_ <;> decide

/-- C7: whenever an entry is selected, the returned version list is exactly
the map of the `name` field over that entry's versions, in registry order
with no reordering, filtering or deduplication; and the spec-modelled
Resolver takes the first element of that list as the latest version. -/
theorem c7_versions_in_registry_order (g : AnsibleGalaxy) (r : Role) (sc : Nat)
    (cnt : Int) (rs : List GalaxyResult) (e : GalaxyResult)
    (hsel : selectMatching rs (namespaceForKeywords (keywordsForRole r)) = some e) :
    VersionsForRole g r { StatusCode := sc, Body := some { Count := cnt, Results := rs } } =
      Except.ok (e.SummaryFields.Versions.map GalaxyVersion.Name) ∧
    ∀ v tl, e.SummaryFields.Versions = v :: tl →
      (resolve r (VersionsForRole g r
        { StatusCode := sc, Body := some { Count := cnt, Results := rs } })).latestVersion =
        some v.Name := by
  have h1 : VersionsForRole g r { StatusCode := sc, Body := some { Count := cnt, Results := rs } } =
      Except.ok (e.SummaryFields.Versions.map GalaxyVersion.Name) := by
    unfold VersionsForRole
    rw [if_neg (by omega)]
    simp [hsel]
  refine ⟨h1, ?_⟩
  intro v tl hv
  rw [h1, hv]
  unfold resolve
  simp only [List.map_cons]
  split <;> rfl

/-- C7 witness: a single entry with versions `v1.1.0`, `v1.0.0` comes back
as that exact list, and the Resolver reports `v1.1.0` as the latest. -/
theorem c7_versions_in_registry_order_witness :
    VersionsForRole (NewAnsibleGalaxy "") ⟨"ns.role", "v1.0.0", ""⟩
        ⟨200, some ⟨1, [⟨⟨[⟨"v1.1.0"⟩, ⟨"v1.0.0"⟩], ⟨"ns"⟩⟩⟩]⟩⟩ =
      Except.ok ["v1.1.0", "v1.0.0"] ∧
    (resolve ⟨"ns.role", "v1.0.0", ""⟩
        (VersionsForRole (NewAnsibleGalaxy "") ⟨"ns.role", "v1.0.0", ""⟩
          ⟨200, some ⟨1, [⟨⟨[⟨"v1.1.0"⟩, ⟨"v1.0.0"⟩], ⟨"ns"⟩⟩⟩]⟩⟩)).latestVersion =
      some "v1.1.0" := by
  have h := c7_versions_in_registry_order (NewAnsibleGalaxy "") ⟨"ns.role", "v1.0.0", ""⟩ 200 1
      [⟨⟨[⟨"v1.1.0"⟩, ⟨"v1.0.0"⟩], ⟨"ns"⟩⟩⟩] ⟨⟨[⟨"v1.1.0"⟩, ⟨"v1.0.0"⟩], ⟨"ns"⟩⟩⟩ (by decide)
  exact ⟨h.1, h.2 ⟨"v1.1.0"⟩ [⟨"v1.0.0"⟩] rfl⟩

/-- C8: every result of the spec-modelled `resolve` satisfies the data
model invariant: an Outdated result carries a latest version different
from the declared version, an Unresolved result carries none. -/
theorem c8_resolve_invariant (ref : Role) (lookup : Except String (List String)) :
    ((resolve ref lookup).status = Status.outdated →
      (resolve ref lookup).latestVersion ≠ none ∧
      (resolve ref lookup).latestVersion ≠ some ref.Version) ∧
    ((resolve ref lookup).status = Status.unresolved →
      (resolve ref lookup).latestVersion = none) := by
  cases lookup with
  | error e => simp [resolve]
  | ok l =>
    cases l with
    | nil => simp [resolve]
    | cons latest rest =>
      by_cases h : latest = ref.Version <;> simp [resolve, h]

/-- C8 witness: a declared version `v1.0.0` against latest `v1.1.0` is an
Outdated result whose latest version is set and differs from `v1.0.0`. -/
theorem c8_resolve_invariant_witness :
    (resolve ⟨"ns.role", "v1.0.0", ""⟩ (Except.ok ["v1.1.0"])).latestVersion ≠ none ∧
    (resolve ⟨"ns.role", "v1.0.0", ""⟩ (Except.ok ["v1.1.0"])).latestVersion ≠ some "v1.0.0" := by
  have h := (c8_resolve_invariant ⟨"ns.role", "v1.0.0", ""⟩ (Except.ok ["v1.1.0"])).1 (by decide)
  exact h

/-- C10: when the selected entry has an empty version list,
`VersionsForRole` returns the empty list with no error. -/
theorem c10_empty_versions_not_an_error (g : AnsibleGalaxy) (r : Role) (sc : Nat)
    (cnt : Int) (rs : List GalaxyResult) (e : GalaxyResult)
    (hsel : selectMatching rs (namespaceForKeywords (keywordsForRole r)) = some e)
    (hv : e.SummaryFields.Versions = []) :
    VersionsForRole g r { StatusCode := sc, Body := some { Count := cnt, Results := rs } } =
      Except.ok [] := by
  unfold VersionsForRole
  rw [if_neg (by omega)]
  simp [hsel, hv]

/-- C10 witness: a single matching entry with no versions yields
`Except.ok []`, not an error. -/
theorem c10_empty_versions_not_an_error_witness :
    VersionsForRole (NewAnsibleGalaxy "") ⟨"ns.role", "v1.0.0", ""⟩
        ⟨200, some ⟨1, [⟨⟨[], ⟨"ns"⟩⟩⟩]⟩⟩ = Except.ok [] := by
  have h := c10_empty_versions_not_an_error (NewAnsibleGalaxy "") ⟨"ns.role", "v1.0.0", ""⟩ 200 1
      [⟨⟨[], ⟨"ns"⟩⟩⟩] ⟨⟨[], ⟨"ns"⟩⟩⟩ (by decide) rfl
  exact h

/-- C1: the status-code guard of `VersionsForRole` is dead code, since
`resp.StatusCode < 200 && resp.StatusCode >= 300` is never true: at status
code 500 with a decodable body the call returns the version list instead
of failing as the spec requires. -/
theorem c1_status_guard_dead :
    VersionsForRole (NewAnsibleGalaxy "") ⟨"ns.role", "v1.0.0", ""⟩
        ⟨500, some ⟨1, [⟨⟨[⟨"v1.1.0"⟩, ⟨"v1.0.0"⟩], ⟨"ns"⟩⟩⟩]⟩⟩ =
      Except.ok ["v1.1.0", "v1.0.0"] := by
  rfl
